import Mathlib

/-!
Verification development for the AI Pokédex application (`app.py`).

The file shallowly embeds the application's logical core in Lean:

* the Python string operations used by `clean_name` (an ASCII model of
  `str.strip` / `str.lower` / `str.replace(" ", "-")` / `str.capitalize`);
* the OpenAI identification post-processing of `predict_pokemon`;
* the PokéAPI JSON extraction of `fetch_pokemon_data`, with JSON values as an
  inductive type and Python's `KeyError` / `AttributeError` / `TypeError`
  behaviour (all caught by the surrounding `try`/`except`) modelled by
  `Option`;
* the `st.cache_data(ttl=3600)` memoisation layer, keyed — as Streamlit keys
  it — by the function's raw argument, with network requests counted
  explicitly;
* the Streamlit session state (`pokemon_data`, `captured_image`,
  `detection_failed`) and the analyze / display / reset logic of `main`.

Numbers: PokéAPI heights and weights are integers (decimetres and
hectograms); the scaling `* 0.1` is modelled exactly over `ℚ`.
-/

/-! ## ASCII model of the Python string operations used by the app -/

/-- Whitespace stripped by Python's `str.strip()`, restricted to the ASCII
whitespace characters (space, tab, newline, carriage return, vertical tab,
form feed). -/
def isPySpace (c : Char) : Bool :=
  c.toNat = 32 || c.toNat = 9 || c.toNat = 10 || c.toNat = 13 ||
  c.toNat = 11 || c.toNat = 12

/-- List-level model of `str.strip()`: drop whitespace from both ends. -/
def stripChars (l : List Char) : List Char :=
  ((l.dropWhile isPySpace).reverse.dropWhile isPySpace).reverse

/-- Model of `str.strip()`. -/
def pyStrip (s : String) : String :=
  String.mk (stripChars s.data)

/-- ASCII model of the per-character action of `str.lower()`:
code points 65–90 (`A`–`Z`) move to 97–122 (`a`–`z`); all else is fixed. -/
def pyToLower (c : Char) : Char :=
  if 65 ≤ c.toNat ∧ c.toNat ≤ 90 then Char.ofNat (c.toNat + 32) else c

/-- ASCII model of `str.lower()`. -/
def pyLower (s : String) : String :=
  String.mk (s.data.map pyToLower)

/-- Per-character action of `str.replace(" ", "-")`: a space (code point 32)
becomes a hyphen; all else is fixed. -/
def pyReplChar (c : Char) : Char :=
  if c.toNat = 32 then '-' else c

/-- Model of `str.replace(" ", "-")`. -/
def pyReplaceSpace (s : String) : String :=
  String.mk (s.data.map pyReplChar)

/-- ASCII model of the per-character action of `str.upper()`. -/
def pyToUpper (c : Char) : Char :=
  if 97 ≤ c.toNat ∧ c.toNat ≤ 122 then Char.ofNat (c.toNat - 32) else c

/-- ASCII model of `str.capitalize()`: first character uppercased, the rest
lowercased. -/
def pyCapitalize (s : String) : String :=
  match s.data with
  | [] => ""
  | c :: cs => String.mk (pyToUpper c :: cs.map pyToLower)

/-- Embedding of `clean_name` (`app.py`, lines 62–72):
`raw_prediction.strip().lower().replace(" ", "-")`. -/
def clean_name (raw_prediction : String) : String :=
  pyReplaceSpace (pyLower (pyStrip raw_prediction))

/-! ## Identification client (`predict_pokemon`, `app.py` lines 75–129) -/

/-- The fixed denylist of non-answer phrases filtered out at line 123. -/
def denylist : List String :=
  ["none", "unknown", "not a pokemon", "no pokemon", "unable to identify"]

/-- Embedding of the post-processing of the model response text
(`app.py` lines 120–126): strip, then reject the empty string and
denylisted phrases (compared after lowercasing). -/
def postprocess_name (content : String) : Option String :=
  let name := pyStrip content
  if name = "" || denylist.contains (pyLower name) then none else some name

/-- Outcome of the outbound `chat.completions.create` call: either the
response's `message.content` (which the API may return as null), or an
exception (timeout, authentication failure, malformed response). -/
inductive CompletionOutcome where
  | content (text : Option String)
  | exn

/-- The body of the `try` block of `predict_pokemon` (lines 90–127).
`Except.error ()` marks a raised exception: either the outbound call itself
raised, or `message.content` was `None` and `.strip()` raised
`AttributeError`. -/
def try_predict (o : CompletionOutcome) : Except Unit (Option String) :=
  match o with
  | .exn => .error ()
  | .content none => .error ()
  | .content (some text) => .ok (postprocess_name text)

/-- Embedding of `predict_pokemon` (lines 75–129): the missing-key check
before the `try` block, then the `try`/`except` converting every raised
exception to `None`. -/
def predict_pokemon (api_key_present : Bool) (o : CompletionOutcome) : Option String :=
  if api_key_present = false then none
  else
    match try_predict o with
    | .error _ => none
    | .ok v => v

/-! ## JSON values and the PokéAPI response mapping -/

/-- JSON values, as produced by `response.json()`. Numbers are restricted to
integers: every field the mapping reads is an integer in the PokéAPI
schema. -/
inductive Json where
  | null
  | bool (b : Bool)
  | num (n : Int)
  | str (s : String)
  | arr (elems : List Json)
  | obj (fields : List (String × Json))

/-- Python `data[k]` on a dict, with `KeyError` (and indexing a non-dict)
modelled as `none`. -/
def jGet (j : Json) (k : String) : Option Json :=
  match j with
  | .obj fields => (fields.find? (fun p => p.1 == k)).map (fun p => p.2)
  | _ => none

/-- Chained dict indexing `data[k1][k2]…`, `none` as soon as a key is
missing. -/
def jPath (j : Json) : List String → Option Json
  | [] => some j
  | k :: ks =>
    match jGet j k with
    | some x => jPath x ks
    | none => none

/-- Read a JSON string, failing on any other value (Python would raise on
the subsequent `.capitalize()` / string use). -/
def Json.asStr? : Json → Option String
  | .str s => some s
  | _ => none

/-- Read a JSON integer, failing on any other value (Python would raise on
the subsequent arithmetic). -/
def Json.asInt? : Json → Option Int
  | .num n => some n
  | _ => none

/-- Read a JSON array, failing on any other value. -/
def Json.asArr? : Json → Option (List Json)
  | .arr l => some l
  | _ => none

/-- Python list comprehension over a fallible body: the first raised
exception aborts the whole comprehension. -/
def mapOption (f : α → Option β) : List α → Option (List β)
  | [] => some []
  | a :: l =>
    match f a with
    | none => none
    | some b =>
      match mapOption f l with
      | none => none
      | some bl => some (b :: bl)

/-- The display-ready record built by `fetch_pokemon_data` (lines 161–169).
`official_sprite` keeps the raw JSON value (`front_default` may be null);
`stats` keeps the name/base-value pairs of the `stats` dict comprehension. -/
structure PokemonRecord where
  name : String
  official_sprite : Json
  types : List String
  height : ℚ
  weight : ℚ
  stats : List (String × Int)
  abilities : List String

/-- Body of the `types` comprehension: `t["type"]["name"].capitalize()`. -/
def extractType (t : Json) : Option String := do
  let ty ← jGet t "type"
  let n ← jGet ty "name"
  let s ← n.asStr?
  pure (pyCapitalize s)

/-- Body of the `stats` dict comprehension:
`stat["stat"]["name"] : stat["base_stat"]`. -/
def extractStat (st : Json) : Option (String × Int) := do
  let sj ← jGet st "stat"
  let nj ← jGet sj "name"
  let nm ← nj.asStr?
  let bj ← jGet st "base_stat"
  let bv ← bj.asInt?
  pure (nm, bv)

/-- Body of the `abilities` comprehension:
`a["ability"]["name"].capitalize()`. -/
def extractAbility (a : Json) : Option String := do
  let ab ← jGet a "ability"
  let n ← jGet ab "name"
  let s ← n.asStr?
  pure (pyCapitalize s)

/-- Field expression `data["name"]` (read as a string; `.capitalize()` is
applied by the caller). -/
def extractName (data : Json) : Option String :=
  (jGet data "name").bind Json.asStr?

/-- Field expression
`data["sprites"]["other"]["official-artwork"]["front_default"]`. -/
def extractSprite (data : Json) : Option Json :=
  jPath data ["sprites", "other", "official-artwork", "front_default"]

/-- Field expression `[t["type"]["name"].capitalize() for t in data["types"]]`. -/
def extractTypes (data : Json) : Option (List String) := do
  let tj ← jGet data "types"
  let tl ← tj.asArr?
  mapOption extractType tl

/-- Field expression `data["height"]` (read as an integer; the caller
scales it). -/
def extractHeight (data : Json) : Option Int :=
  (jGet data "height").bind Json.asInt?

/-- Field expression `data["weight"]` (read as an integer; the caller
scales it). -/
def extractWeight (data : Json) : Option Int :=
  (jGet data "weight").bind Json.asInt?

/-- Field expression
`{stat["stat"]["name"]: stat["base_stat"] for stat in data["stats"]}`. -/
def extractStats (data : Json) : Option (List (String × Int)) := do
  let sj ← jGet data "stats"
  let sl ← sj.asArr?
  mapOption extractStat sl

/-- Field expression
`[a["ability"]["name"].capitalize() for a in data["abilities"][:3]]`. -/
def extractAbilities (data : Json) : Option (List String) := do
  let aj ← jGet data "abilities"
  let al ← aj.asArr?
  mapOption extractAbility (al.take 3)

/-- Embedding of the dict literal of lines 161–169, evaluated in Python's
left-to-right field order; any raised exception (missing key, wrong type)
makes the whole extraction fail, which the `except` clause at line 173 turns
into `None`. -/
def extract_pokemon_data (data : Json) : Option PokemonRecord := do
  let nm ← extractName data
  let sprite ← extractSprite data
  let types ← extractTypes data
  let h ← extractHeight data
  let w ← extractWeight data
  let stats ← extractStats data
  let abilities ← extractAbilities data
  pure { name := pyCapitalize nm, official_sprite := sprite, types := types,
         height := (h : ℚ) * (1 / 10), weight := (w : ℚ) * (1 / 10),
         stats := stats, abilities := abilities }

/-- Model of `data["stats"].get(stat_key, 0)` in `render_pokemon_info`
(line 228): dict lookup with default `0`; a Python dict comprehension keeps
the last binding of a duplicated key. -/
def statsGet (stats : List (String × Int)) (k : String) : Int :=
  match (stats.filter (fun p => p.1 == k)).getLast? with
  | some p => p.2
  | none => 0

/-! ## Data fetch client (`fetch_pokemon_data`, `app.py` lines 132–174) -/

/-- Outcome of the outbound `requests.get` call: a response with a status
code and a body (`none` when `response.json()` would raise on an unparsable
body), or a raised request exception (connection failure, timeout). -/
inductive HttpOutcome where
  | response (status : Nat) (body : Option Json)
  | failure

/-- Embedding of the body of `fetch_pokemon_data` (the uncached function,
lines 144–174), paired with the number of network requests it issues. The
environment `net` gives the outcome of `GET …/pokemon/{slug}`. -/
def fetch_body (net : String → HttpOutcome) (pokemon_name : String) :
    Option PokemonRecord × Nat :=
  if pokemon_name = "" then (none, 0)
  else
    match net (clean_name pokemon_name) with
    | .failure => (none, 1)
    | .response status body =>
      if status ≠ 200 then (none, 1)
      else
        match body with
        | none => (none, 1)
        | some data => (extract_pokemon_data data, 1)

/-- The value returned by one (uncached) `fetch_pokemon_data` call. -/
def fetch_pokemon_data (net : String → HttpOutcome) (pokemon_name : String) :
    Option PokemonRecord :=
  (fetch_body net pokemon_name).1

/-! ## The `st.cache_data(ttl=3600)` layer (line 132) -/

/-- The cache time-to-live in seconds (`ttl=3600`). -/
def TTL : Nat := 3600

/-- Streamlit `cache_data` store for `fetch_pokemon_data`: one entry per
argument value, holding the cached return value and its creation time. The
key is the function's raw `pokemon_name` argument — Streamlit hashes the
arguments as passed; `clean_name` runs inside the cached function. -/
abbrev FetchCache := List (String × Option PokemonRecord × Nat)

/-- Cache lookup at time `now`: a stored entry is served while its age is
below the time-to-live, otherwise it is treated as a miss. -/
def cacheLookup (c : FetchCache) (k : String) (now : Nat) :
    Option (Option PokemonRecord) :=
  match c.find? (fun e => e.1 == k) with
  | some e => if now < e.2.2 + TTL then some e.2.1 else none
  | none => none

/-- One call of the cached `fetch_pokemon_data` at time `now`: on a hit the
stored value is returned with no network request; on a miss the body runs
and its result is stored under the raw argument, replacing any previous
entry for that argument (last write wins). Returns the call's result, the
new cache, and the number of network requests the call issued. -/
def fetch_cached (net : String → HttpOutcome) (c : FetchCache) (now : Nat)
    (pokemon_name : String) : Option PokemonRecord × FetchCache × Nat :=
  match cacheLookup c pokemon_name now with
  | some v => (v, c, 0)
  | none =>
    let r := fetch_body net pokemon_name
    (r.1, (pokemon_name, r.1, now) :: c.filter (fun e => e.1 != pokemon_name), r.2)

/-! ## Session state and the workflow of `main` (`app.py` lines 248–321) -/

/-- The Streamlit session state used by `main`: the stored record
(`st.session_state.pokemon_data`), the stored captured image
(`st.session_state.captured_image`, modelled by its raw bytes), and the
failure flag (`st.session_state.detection_failed`). -/
structure SessionState where
  pokemon_data : Option PokemonRecord
  captured_image : Option (List Nat)
  detection_failed : Bool

/-- Embedding of the analyze block (lines 272–298) given the identification
result and the data-fetch function: if a truthy name was produced, the fetch
runs once; a fetched record is stored and the failure flag cleared; on a
failed fetch or no name only the failure flag is set — the stored record is
left untouched. Returns the new state and the number of data-fetch calls
issued. -/
def analyze_action (identified : Option String)
    (fetch : String → Option PokemonRecord) (s : SessionState) :
    SessionState × Nat :=
  match identified with
  | some name =>
    if name = "" then ({ s with detection_failed := true }, 0)
    else
      match fetch name with
      | some rec => ({ s with pokemon_data := some rec, detection_failed := false }, 1)
      | none => ({ s with detection_failed := true }, 1)
  | none => ({ s with detection_failed := true }, 0)

/-- The user-visible results area rendered by lines 300–314. -/
inductive DisplayOutcome where
  | record (r : PokemonRecord)
  | notFoundMessage
  | idle

/-- Embedding of the display branching of lines 300–314: a stored record is
rendered first; only otherwise is the failure flag consulted for the
not-found message. -/
def displayResult (s : SessionState) : DisplayOutcome :=
  match s.pokemon_data with
  | some r => .record r
  | none => if s.detection_failed then .notFoundMessage else .idle

/-- Boolean observer: the results area shows the not-found message. -/
def showsNotFound (s : SessionState) : Bool :=
  s.pokemon_data.isNone && s.detection_failed

/-- Boolean observer: the results area shows a stored record. -/
def showsRecord (s : SessionState) : Bool :=
  s.pokemon_data.isSome

/-- Embedding of the `Start Over` handler (lines 307–310 and 317–320):
clear the stored record, the captured image and the failure flag. -/
def reset_action (_s : SessionState) : SessionState :=
  { pokemon_data := none, captured_image := none, detection_failed := false }

/-! ## Concrete test fixtures -/

/-- PokéAPI-shaped JSON document, as described in the spec's external
interface section, used as a concrete input to the mapping. -/
def mkTypeEntry (s : String) : Json :=
  Json.obj [("type", Json.obj [("name", Json.str s)])]

/-- Stat entry of a PokéAPI document. -/
def mkStatEntry (p : String × Int) : Json :=
  Json.obj [("stat", Json.obj [("name", Json.str p.1)]), ("base_stat", Json.num p.2)]

/-- Ability entry of a PokéAPI document. -/
def mkAbilityEntry (s : String) : Json :=
  Json.obj [("ability", Json.obj [("name", Json.str s)])]

/-- A full PokéAPI `GET /pokemon/{slug}` response body with the given raw
field values. -/
def mkApiJson (nm : String) (spr : Json) (tys : List String) (h w : Int)
    (sts : List (String × Int)) (abl : List String) : Json :=
  Json.obj
    [("name", Json.str nm),
     ("sprites", Json.obj [("other", Json.obj
        [("official-artwork", Json.obj [("front_default", spr)])])]),
     ("types", Json.arr (tys.map mkTypeEntry)),
     ("height", Json.num h),
     ("weight", Json.num w),
     ("stats", Json.arr (sts.map mkStatEntry)),
     ("abilities", Json.arr (abl.map mkAbilityEntry))]

/-- A concrete record, as stored after a successful earlier run. -/
def sampleRecord : PokemonRecord :=
  { name := "Pikachu", official_sprite := Json.null, types := ["Electric"],
    height := 4 / 10, weight := 6, stats := [("speed", 90)],
    abilities := ["Static"] }

/-- A network on which every request yields a 404. -/
def net404 : String → HttpOutcome := fun _ => HttpOutcome.response 404 none

/-! ## Character-level lemmas for the normalizer -/

/-- Evaluation of `Char.ofNat` below the surrogate range. -/
theorem char_toNat_ofNat (m : Nat) (h : m < 55296) : (Char.ofNat m).toNat = m := by
  unfold Char.ofNat
  rw [dif_pos (Or.inl h)]
  rfl

/-- A character outside `A`–`Z` is fixed by the lowercasing map. -/
theorem pyToLower_eq_self (c : Char) (h : ¬(65 ≤ c.toNat ∧ c.toNat ≤ 90)) :
    pyToLower c = c := by
  unfold pyToLower
  exact if_neg h

/-- The lowercasing map never produces an uppercase letter. -/
theorem pyToLower_not_upper (c : Char) :
    ¬(65 ≤ (pyToLower c).toNat ∧ (pyToLower c).toNat ≤ 90) := by
  unfold pyToLower
  by_cases h : 65 ≤ c.toNat ∧ c.toNat ≤ 90
  · rw [if_pos h, char_toNat_ofNat _ (by omega)]
    omega
  · rw [if_neg h]
    exact h

/-- Lowercasing an uppercase letter lands in `a`–`z`. -/
theorem pyToLower_upper_range (c : Char) (h : 65 ≤ c.toNat ∧ c.toNat ≤ 90) :
    97 ≤ (pyToLower c).toNat ∧ (pyToLower c).toNat ≤ 122 := by
  unfold pyToLower
  rw [if_pos h, char_toNat_ofNat _ (by omega)]
  omega

/-- Unfolding `isPySpace` into arithmetic on the code point. -/
theorem isPySpace_iff (c : Char) :
    isPySpace c = true ↔
      (c.toNat = 32 ∨ c.toNat = 9 ∨ c.toNat = 10 ∨ c.toNat = 13 ∨
       c.toNat = 11 ∨ c.toNat = 12) := by
  unfold isPySpace
  simp [Bool.or_eq_true, decide_eq_true_eq, or_assoc]

/-- A hyphen replacement target: a character that is not a space is fixed by
the replacement map. -/
theorem pyReplChar_eq_self (c : Char) (h : c.toNat ≠ 32) : pyReplChar c = c := by
  unfold pyReplChar
  exact if_neg h

/-- The composite per-character action of `lower` then `replace` preserves
non-whitespace. -/
theorem lowRepl_not_space (c : Char) (h : isPySpace c = false) :
    isPySpace (pyReplChar (pyToLower c)) = false := by
  by_cases hu : 65 ≤ c.toNat ∧ c.toNat ≤ 90
  · have hr := pyToLower_upper_range c hu
    rw [pyReplChar_eq_self _ (by omega)]
    rw [← Bool.not_eq_true, isPySpace_iff]
    omega
  · rw [pyToLower_eq_self c hu]
    have hc : ¬(c.toNat = 32 ∨ c.toNat = 9 ∨ c.toNat = 10 ∨ c.toNat = 13 ∨
        c.toNat = 11 ∨ c.toNat = 12) := by
      rw [← isPySpace_iff, h]
      simp
    rw [pyReplChar_eq_self c (by omega)]
    exact h

/-- The composite per-character action of `lower` then `replace` is
idempotent. -/
theorem lowRepl_idem (c : Char) :
    pyReplChar (pyToLower (pyReplChar (pyToLower c))) = pyReplChar (pyToLower c) := by
  by_cases hu : 65 ≤ c.toNat ∧ c.toNat ≤ 90
  · have hr := pyToLower_upper_range c hu
    have h1 : pyReplChar (pyToLower c) = pyToLower c :=
      pyReplChar_eq_self (pyToLower c) (by omega)
    have h2 : pyToLower (pyToLower c) = pyToLower c :=
      pyToLower_eq_self (pyToLower c) (by omega)
    rw [h1, h2, h1]
  · rw [pyToLower_eq_self c hu]
    by_cases hs : c.toNat = 32
    · have hdash : pyReplChar c = '-' := by
        unfold pyReplChar
        exact if_pos hs
      rw [hdash]
      decide
    · rw [pyReplChar_eq_self c hs, pyToLower_eq_self c hu, pyReplChar_eq_self c hs]

/-! ## List-level lemmas for `stripChars` -/

/-- The head surviving a `dropWhile` does not satisfy the dropped predicate. -/
theorem head?_dropWhile_false (p : α → Bool) (l : List α) :
    ∀ c, (l.dropWhile p).head? = some c → p c = false := by
  induction l with
  | nil => intro c hc; simp [List.dropWhile] at hc
  | cons a t ih =>
    intro c hc
    rw [List.dropWhile_cons] at hc
    by_cases hp : p a = true
    · rw [if_pos hp] at hc
      exact ih c hc
    · rw [if_neg hp] at hc
      simp at hc
      rw [← hc]
      exact Bool.eq_false_iff.mpr hp

/-- A list whose head does not satisfy `p` is unchanged by `dropWhile p`. -/
theorem dropWhile_eq_self_of_head (p : α → Bool) (l : List α)
    (h : ∀ c, l.head? = some c → p c = false) : l.dropWhile p = l := by
  cases l with
  | nil => rfl
  | cons a t =>
    rw [List.dropWhile_cons, if_neg]
    rw [h a rfl]
    simp

/-- When `dropWhile` leaves something, the last element is unchanged. -/
theorem getLast?_dropWhile (p : α → Bool) (l : List α)
    (h : l.dropWhile p ≠ []) : (l.dropWhile p).getLast? = l.getLast? := by
  induction l with
  | nil => simp [List.dropWhile] at h
  | cons a t ih =>
    rw [List.dropWhile_cons]
    by_cases hp : p a = true
    · rw [List.dropWhile_cons, if_pos hp] at h
      rw [if_pos hp, ih h]
      have ht : t ≠ [] := by
        intro he
        rw [he] at h
        exact h rfl
      cases t with
      | nil => exact absurd rfl ht
      | cons b u => rw [List.getLast?_cons_cons]
    · rw [if_neg hp]

/-- The head of a stripped list is not whitespace. -/
theorem head?_stripChars (l : List Char) :
    ∀ c, (stripChars l).head? = some c → isPySpace c = false := by
  intro c hc
  unfold stripChars at hc
  rw [List.head?_reverse] at hc
  by_cases hx : (l.dropWhile isPySpace).reverse.dropWhile isPySpace = []
  · rw [hx] at hc
    simp at hc
  · rw [getLast?_dropWhile _ _ hx, List.getLast?_reverse] at hc
    exact head?_dropWhile_false _ _ c hc

/-- The last element of a stripped list is not whitespace. -/
theorem getLast?_stripChars (l : List Char) :
    ∀ c, (stripChars l).getLast? = some c → isPySpace c = false := by
  intro c hc
  unfold stripChars at hc
  rw [List.getLast?_reverse] at hc
  exact head?_dropWhile_false _ _ c hc

/-- A list already free of surrounding whitespace is unchanged by
`stripChars`. -/
theorem stripChars_eq_self (l : List Char)
    (h1 : ∀ c, l.head? = some c → isPySpace c = false)
    (h2 : ∀ c, l.getLast? = some c → isPySpace c = false) :
    stripChars l = l := by
  unfold stripChars
  rw [dropWhile_eq_self_of_head _ l h1]
  rw [dropWhile_eq_self_of_head _ l.reverse (by
    intro c hc
    rw [List.head?_reverse] at hc
    exact h2 c hc)]
  exact l.reverse_reverse

/-- List-level form of `clean_name`. -/
theorem clean_name_data (s : String) :
    clean_name s = String.mk (((stripChars s.data).map pyToLower).map pyReplChar) := rfl

/-- Idempotence of `clean_name`, at the level of character lists. -/
theorem clean_name_idem_aux (l : List Char) :
    ((stripChars (((stripChars l).map pyToLower).map pyReplChar)).map pyToLower).map pyReplChar
      = ((stripChars l).map pyToLower).map pyReplChar := by
  have hy : ((stripChars l).map pyToLower).map pyReplChar
      = (stripChars l).map (pyReplChar ∘ pyToLower) := List.map_map _ _ _
  have hstrip : stripChars ((stripChars l).map (pyReplChar ∘ pyToLower))
      = (stripChars l).map (pyReplChar ∘ pyToLower) := by
    apply stripChars_eq_self
    · intro c hc
      rw [List.head?_map] at hc
      rcases Option.map_eq_some'.mp hc with ⟨c0, hc0, hfc⟩
      have h0 : isPySpace c0 = false := head?_stripChars l c0 hc0
      rw [← hfc]
      exact lowRepl_not_space c0 h0
    · intro c hc
      rw [List.getLast?_map] at hc
      rcases Option.map_eq_some'.mp hc with ⟨c0, hc0, hfc⟩
      have h0 : isPySpace c0 = false := getLast?_stripChars l c0 hc0
      rw [← hfc]
      exact lowRepl_not_space c0 h0
  rw [hy, hstrip, List.map_map, List.map_map]
  apply List.map_eq_map_iff.mpr
  intro a _
  simp only [Function.comp_apply]
  exact lowRepl_idem a

/-- C4: the name normalizer `clean_name` trims surrounding whitespace,
lowercases and replaces spaces with hyphens (its definition), is a pure
total function, is idempotent on every string, and maps the spec's examples
as stated: `clean_name "Pikachu" = clean_name " pikachu " = "pikachu"` and
`clean_name "Mr Mime" = "mr-mime"`. -/
theorem C4_normalizer_idempotent :
    (∀ x : String, clean_name (clean_name x) = clean_name x)
    ∧ clean_name "Pikachu" = "pikachu"
    ∧ clean_name " pikachu " = "pikachu"
    ∧ clean_name "Pikachu" = clean_name " pikachu "
    ∧ clean_name "Mr Mime" = "mr-mime" := by
  refine ⟨?_, by decide, by decide, by decide, by decide⟩
  intro x
  rw [clean_name_data x, clean_name_data]
  exact congrArg String.mk (clean_name_idem_aux x.data)

/-! ## Identification claims -/

/-- The denylist phrases are already lowercase. -/
theorem denylist_lower_fixed : ∀ d ∈ denylist, pyLower d = d := by decide

/-- C5: for every model response text, the post-processing trims whitespace
and returns absent exactly when the trimmed text is empty or matches a
denylist member case-insensitively (the code compares the lowercased trimmed
text against the lowercase members); otherwise it returns the trimmed text
as the candidate name. -/
theorem C5_identify_postprocessing (text : String) :
    (postprocess_name text = none ↔
      (pyStrip text = "" ∨ ∃ d ∈ denylist, pyLower (pyStrip text) = pyLower d))
    ∧ (pyStrip text ≠ "" → (∀ d ∈ denylist, pyLower (pyStrip text) ≠ pyLower d) →
        postprocess_name text = some (pyStrip text)) := by
  have hmem : denylist.contains (pyLower (pyStrip text)) = true ↔
      (∃ d ∈ denylist, pyLower (pyStrip text) = pyLower d) := by
    rw [List.elem_iff]
    constructor
    · intro hin
      exact ⟨pyLower (pyStrip text), hin, (denylist_lower_fixed _ hin).symm⟩
    · rintro ⟨d, hd, heq⟩
      rw [heq, denylist_lower_fixed d hd]
      exact hd
  constructor
  · unfold postprocess_name
    by_cases he : pyStrip text = ""
    · simp [he]
    · by_cases hc : denylist.contains (pyLower (pyStrip text)) = true
      · simp only [he, hc, hmem.mp hc, or_true, iff_true]
        simp [List.elem_iff.mp hc]
      · have hnx : ¬∃ d ∈ denylist, pyLower (pyStrip text) = pyLower d :=
          fun hx => hc (hmem.mpr hx)
        simp only [he, hnx, or_false, iff_false]
        simp [he]
        exact fun hin => hc (List.elem_iff.mpr hin)
  · intro he hd
    unfold postprocess_name
    have hc : denylist.contains (pyLower (pyStrip text)) ≠ true := by
      intro hx
      rcases hmem.mp hx with ⟨d, hdl, heq⟩
      exact hd d hdl heq
    simp [he]
    exact fun hin => hc (List.elem_iff.mpr hin)

/-- C5 witness: a concrete positive and a concrete negative response. -/
theorem C5_identify_postprocessing_witness :
    postprocess_name " Pikachu " = some (pyStrip " Pikachu ")
    ∧ postprocess_name " Unknown " = none :=
  ⟨(C5_identify_postprocessing " Pikachu ").2 (by decide) (by decide),
   (C5_identify_postprocessing " Unknown ").1.mpr (Or.inr ⟨"unknown", by decide, by decide⟩)⟩

/-- C8: a raised transport or API error inside the `try` block of
`predict_pokemon` never propagates: whenever the block raises, the function
returns the uniform absent result, for any configuration state. -/
theorem C8_identify_swallows_errors (api_key_present : Bool) (o : CompletionOutcome)
    (h : try_predict o = Except.error ()) :
    predict_pokemon api_key_present o = none := by
  unfold predict_pokemon
  rw [h]
  by_cases hk : api_key_present = false
  · rw [if_pos hk]
  · rw [if_neg hk]

/-- C8 witness: the outbound call raising is swallowed into `none`. -/
theorem C8_identify_swallows_errors_witness :
    try_predict CompletionOutcome.exn = Except.error ()
    ∧ predict_pokemon true CompletionOutcome.exn = none :=
  ⟨rfl, C8_identify_swallows_errors true CompletionOutcome.exn rfl⟩

/-! ## Data fetch claims -/

/-- The uncached fetch body never issues more than one network request
(no retry). -/
theorem fetch_body_count_le (net : String → HttpOutcome) (name : String) :
    (fetch_body net name).2 ≤ 1 := by
  unfold fetch_body
  by_cases h : name = ""
  · rw [if_pos h]
    exact Nat.zero_le 1
  · rw [if_neg h]
    cases net (clean_name name) with
    | failure => exact Nat.le_refl 1
    | response status body =>
      by_cases hs : status = 200
      · simp only [hs]
        cases body <;> simp
      · simp [hs]

/-- A fetch with a non-empty argument issues exactly one network request. -/
theorem fetch_body_count_one (net : String → HttpOutcome) (name : String)
    (h : name ≠ "") : (fetch_body net name).2 = 1 := by
  unfold fetch_body
  rw [if_neg h]
  cases net (clean_name name) with
  | failure => rfl
  | response status body =>
    by_cases hs : status = 200
    · simp only [hs]
      cases body <;> simp
    · simp [hs]

/-- C6: `fetch_pokemon_data` returns absent — with no retry and no partial
record — whenever the argument is empty, the response status is anything
other than 200, or the request raises (failure or timeout); in all cases at
most one request is issued. -/
theorem C6_fetch_returns_absent (net : String → HttpOutcome) (name : String) :
    (name = "" → fetch_pokemon_data net name = none)
    ∧ (net (clean_name name) = HttpOutcome.failure → fetch_pokemon_data net name = none)
    ∧ (∀ status body, status ≠ 200 →
        net (clean_name name) = HttpOutcome.response status body →
        fetch_pokemon_data net name = none)
    ∧ (fetch_body net name).2 ≤ 1 := by
  refine ⟨?_, ?_, ?_, fetch_body_count_le net name⟩
  · intro h
    unfold fetch_pokemon_data fetch_body
    rw [if_pos h]
  · intro h
    unfold fetch_pokemon_data fetch_body
    by_cases he : name = ""
    · rw [if_pos he]
    · rw [if_neg he, h]
  · intro status body hs h
    unfold fetch_pokemon_data fetch_body
    by_cases he : name = ""
    · rw [if_pos he]
    · rw [if_neg he, h]
      simp [hs]

/-- C6 witness: empty name, raised request, and a 404 response. -/
theorem C6_fetch_returns_absent_witness :
    fetch_pokemon_data net404 "" = none
    ∧ fetch_pokemon_data (fun _ => HttpOutcome.failure) "pikachu" = none
    ∧ fetch_pokemon_data net404 "pikachu" = none :=
  ⟨(C6_fetch_returns_absent net404 "").1 rfl,
   (C6_fetch_returns_absent (fun _ => HttpOutcome.failure) "pikachu").2.1 rfl,
   (C6_fetch_returns_absent net404 "pikachu").2.2.1 404 none (by decide) rfl⟩

/-! ## Mapping of a well-formed PokéAPI response (C3) -/

/-- A type entry maps to its capitalized type name. -/
theorem extractType_mk (s : String) :
    extractType (mkTypeEntry s) = some (pyCapitalize s) := rfl

/-- A stat entry maps to its name/base-value pair. -/
theorem extractStat_mk (p : String × Int) :
    extractStat (mkStatEntry p) = some (p.1, p.2) := rfl

/-- An ability entry maps to its capitalized ability name. -/
theorem extractAbility_mk (s : String) :
    extractAbility (mkAbilityEntry s) = some (pyCapitalize s) := rfl

/-- The types comprehension over built type entries. -/
theorem mapOption_type (tys : List String) :
    mapOption extractType (tys.map mkTypeEntry) = some (tys.map pyCapitalize) := by
  induction tys with
  | nil => rfl
  | cons a t ih => simp [mapOption, extractType_mk, ih]

/-- The stats comprehension over built stat entries. -/
theorem mapOption_stat (sts : List (String × Int)) :
    mapOption extractStat (sts.map mkStatEntry) = some sts := by
  induction sts with
  | nil => rfl
  | cons a t ih => simp [mapOption, extractStat_mk, ih]

/-- The abilities comprehension over built ability entries. -/
theorem mapOption_ability (abl : List String) :
    mapOption extractAbility (abl.map mkAbilityEntry) = some (abl.map pyCapitalize) := by
  induction abl with
  | nil => rfl
  | cons a t ih => simp [mapOption, extractAbility_mk, ih]

/-- Field lemma: the name of a built response. -/
theorem extractName_mk (nm : String) (spr : Json) (tys : List String) (h w : Int)
    (sts : List (String × Int)) (abl : List String) :
    extractName (mkApiJson nm spr tys h w sts abl) = some nm := rfl

/-- Field lemma: the sprite of a built response. -/
theorem extractSprite_mk (nm : String) (spr : Json) (tys : List String) (h w : Int)
    (sts : List (String × Int)) (abl : List String) :
    extractSprite (mkApiJson nm spr tys h w sts abl) = some spr := rfl

/-- Field lemma: the types of a built response. -/
theorem extractTypes_mk (nm : String) (spr : Json) (tys : List String) (h w : Int)
    (sts : List (String × Int)) (abl : List String) :
    extractTypes (mkApiJson nm spr tys h w sts abl) = some (tys.map pyCapitalize) := by
  show mapOption extractType (tys.map mkTypeEntry) = some (tys.map pyCapitalize)
  exact mapOption_type tys

/-- Field lemma: the height of a built response. -/
theorem extractHeight_mk (nm : String) (spr : Json) (tys : List String) (h w : Int)
    (sts : List (String × Int)) (abl : List String) :
    extractHeight (mkApiJson nm spr tys h w sts abl) = some h := rfl

/-- Field lemma: the weight of a built response. -/
theorem extractWeight_mk (nm : String) (spr : Json) (tys : List String) (h w : Int)
    (sts : List (String × Int)) (abl : List String) :
    extractWeight (mkApiJson nm spr tys h w sts abl) = some w := rfl

/-- Field lemma: the stats of a built response. -/
theorem extractStats_mk (nm : String) (spr : Json) (tys : List String) (h w : Int)
    (sts : List (String × Int)) (abl : List String) :
    extractStats (mkApiJson nm spr tys h w sts abl) = some sts := by
  show mapOption extractStat (sts.map mkStatEntry) = some sts
  exact mapOption_stat sts

/-- Field lemma: the abilities of a built response, truncated to three. -/
theorem extractAbilities_mk (nm : String) (spr : Json) (tys : List String) (h w : Int)
    (sts : List (String × Int)) (abl : List String) :
    extractAbilities (mkApiJson nm spr tys h w sts abl)
      = some ((abl.take 3).map pyCapitalize) := by
  show mapOption extractAbility ((abl.map mkAbilityEntry).take 3)
      = some ((abl.take 3).map pyCapitalize)
  rw [← List.map_take]
  exact mapOption_ability (abl.take 3)

/-- The full mapping of a built response. -/
theorem extract_mkApiJson (nm : String) (spr : Json) (tys : List String) (h w : Int)
    (sts : List (String × Int)) (abl : List String) :
    extract_pokemon_data (mkApiJson nm spr tys h w sts abl) = some
      { name := pyCapitalize nm, official_sprite := spr, types := tys.map pyCapitalize,
        height := (h : ℚ) * (1 / 10), weight := (w : ℚ) * (1 / 10),
        stats := sts, abilities := (abl.take 3).map pyCapitalize } := by
  unfold extract_pokemon_data
  rw [extractName_mk nm spr tys h w sts abl, extractSprite_mk nm spr tys h w sts abl,
      extractTypes_mk nm spr tys h w sts abl, extractHeight_mk nm spr tys h w sts abl,
      extractWeight_mk nm spr tys h w sts abl, extractStats_mk nm spr tys h w sts abl,
      extractAbilities_mk nm spr tys h w sts abl]
  rfl

/-- A key bound nowhere in the stats yields the display default 0. -/
theorem statsGet_missing (sts : List (String × Int)) (k : String)
    (h : ∀ p ∈ sts, p.1 ≠ k) : statsGet sts k = 0 := by
  unfold statsGet
  have hnil : sts.filter (fun p => p.1 == k) = [] := by
    rw [List.filter_eq_nil_iff]
    intro a ha
    simpa using h a ha
  rw [hnil]
  rfl

/-- C3: for every successful (HTTP 200) data response in the PokéAPI shape,
`fetch_pokemon_data` maps the JSON body into a record with the name
capitalized, each type and ability name capitalized, abilities truncated to
the first three, height and weight equal to the raw decimetre/hectogram
values times 1/10, the stats kept as name/value pairs; and any stat key
missing from the stat mapping defaults to zero for display. -/
theorem C3_fetch_success_mapping (net : String → HttpOutcome) (name nm : String)
    (spr : Json) (tys : List String) (h w : Int) (sts : List (String × Int))
    (abl : List String) (hname : name ≠ "")
    (hnet : net (clean_name name)
      = HttpOutcome.response 200 (some (mkApiJson nm spr tys h w sts abl))) :
    fetch_pokemon_data net name = some
      { name := pyCapitalize nm, official_sprite := spr, types := tys.map pyCapitalize,
        height := (h : ℚ) * (1 / 10), weight := (w : ℚ) * (1 / 10),
        stats := sts, abilities := (abl.take 3).map pyCapitalize }
    ∧ (∀ k : String, (∀ p ∈ sts, p.1 ≠ k) → statsGet sts k = 0) := by
  constructor
  · unfold fetch_pokemon_data fetch_body
    rw [if_neg hname, hnet]
    simp only []
    rw [if_neg (by simp)]
    exact extract_mkApiJson nm spr tys h w sts abl
  · exact fun k hk => statsGet_missing sts k hk

/-- C3 witness: the Pikachu instance of the spec — raw height 4 and weight
60 with type `electric` yield 0.4 (metres), 6.0 (kilograms) and
`Electric`. -/
theorem C3_fetch_success_mapping_witness :
    fetch_pokemon_data
        (fun _ => HttpOutcome.response 200
          (some (mkApiJson "pikachu" Json.null ["electric"] 4 60 [("speed", 90)]
            ["static", "lightning-rod", "surge-surfer", "extra"]))) "pikachu"
      = some { name := "Pikachu", official_sprite := Json.null, types := ["Electric"],
               height := (0.4 : ℚ), weight := (6.0 : ℚ), stats := [("speed", 90)],
               abilities := ["Static", "Lightning-rod", "Surge-surfer"] }
    ∧ statsGet [("speed", 90)] "hp" = 0 := by
  have hmain := C3_fetch_success_mapping
    (fun _ => HttpOutcome.response 200
      (some (mkApiJson "pikachu" Json.null ["electric"] 4 60 [("speed", 90)]
        ["static", "lightning-rod", "surge-surfer", "extra"])))
    "pikachu" "pikachu" Json.null ["electric"] 4 60 [("speed", 90)]
    ["static", "lightning-rod", "surge-surfer", "extra"] (by decide) rfl
  refine ⟨?_, hmain.2 "hp" (by decide)⟩
  have h04 : (((4 : Int) : ℚ) * (1 / 10)) = (0.4 : ℚ) := by norm_num
  have h60 : (((60 : Int) : ℚ) * (1 / 10)) = (6.0 : ℚ) := by norm_num
  rw [hmain.1, h04, h60]
  rfl

/-! ## Missing-field behaviour of the mapping (C10) -/

/-- Binding a constantly-failing continuation fails. -/
theorem bind_const_none (x : Option α) :
    (x.bind fun _ => (none : Option β)) = none := by
  cases x <;> rfl

/-- A failing path stays failing under extension. -/
theorem jPath_none_append (q : List String) :
    ∀ (p : List String) (d : Json), jPath d p = none → jPath d (p ++ q) = none := by
  intro p
  induction p with
  | nil =>
    intro d h
    simp [jPath] at h
  | cons k ks ih =>
    intro d h
    rw [List.cons_append]
    cases hk : jGet d k with
    | none => simp [jPath, hk]
    | some x =>
      simp [jPath, hk] at h ⊢
      exact ih x h

/-- If any of the seven field expressions of the dict literal fails, the
whole extraction fails. -/
theorem extract_none_of_field (d : Json)
    (h : extractName d = none ∨ extractSprite d = none ∨ extractTypes d = none ∨
         extractHeight d = none ∨ extractWeight d = none ∨ extractStats d = none ∨
         extractAbilities d = none) :
    extract_pokemon_data d = none := by
  rcases h with h | h | h | h | h | h | h <;>
    simp [extract_pokemon_data, h, bind_const_none]

/-- C10: for every HTTP 200 response whose body is not valid JSON, or whose
JSON body is missing any field the mapping reads (`name`,
`sprites`/`other`/`official-artwork`, `types`, `height`, `weight`, `stats`,
`abilities`), `fetch_pokemon_data` returns absent rather than raising or
returning a partial record. -/
theorem C10_missing_field_absent (net : String → HttpOutcome) (name : String) :
    (net (clean_name name) = HttpOutcome.response 200 none →
      fetch_pokemon_data net name = none)
    ∧ (∀ d : Json, net (clean_name name) = HttpOutcome.response 200 (some d) →
        (jGet d "name" = none ∨ jGet d "sprites" = none ∨
         jPath d ["sprites", "other"] = none ∨
         jPath d ["sprites", "other", "official-artwork"] = none ∨
         jGet d "types" = none ∨ jGet d "height" = none ∨
         jGet d "weight" = none ∨ jGet d "stats" = none ∨
         jGet d "abilities" = none) →
        fetch_pokemon_data net name = none) := by
  by_cases he : name = ""
  · constructor
    · intro _
      unfold fetch_pokemon_data fetch_body
      rw [if_pos he]
    · intro d _ _
      unfold fetch_pokemon_data fetch_body
      rw [if_pos he]
  · constructor
    · intro h
      unfold fetch_pokemon_data fetch_body
      rw [if_neg he, h]
      rfl
    · intro d h hdis
      unfold fetch_pokemon_data fetch_body
      rw [if_neg he, h]
      show extract_pokemon_data d = none
      apply extract_none_of_field
      rcases hdis with h1 | h1 | h1 | h1 | h1 | h1 | h1 | h1 | h1
      · exact Or.inl (by simp [extractName, h1])
      · refine Or.inr (Or.inl ?_)
        show jPath d (["sprites"] ++ ["other", "official-artwork", "front_default"]) = none
        apply jPath_none_append
        simp [jPath, h1]
      · refine Or.inr (Or.inl ?_)
        show jPath d (["sprites", "other"] ++ ["official-artwork", "front_default"]) = none
        exact jPath_none_append _ _ d h1
      · refine Or.inr (Or.inl ?_)
        show jPath d (["sprites", "other", "official-artwork"] ++ ["front_default"]) = none
        exact jPath_none_append _ _ d h1
      · exact Or.inr (Or.inr (Or.inl (by simp [extractTypes, h1])))
      · exact Or.inr (Or.inr (Or.inr (Or.inl (by simp [extractHeight, h1]))))
      · exact Or.inr (Or.inr (Or.inr (Or.inr (Or.inl (by simp [extractWeight, h1])))))
      · exact Or.inr (Or.inr (Or.inr (Or.inr (Or.inr (Or.inl (by simp [extractStats, h1]))))))
      · exact Or.inr (Or.inr (Or.inr (Or.inr (Or.inr (Or.inr (by simp [extractAbilities, h1]))))))

/-- C10 witness: an unparsable body and an empty JSON object. -/
theorem C10_missing_field_absent_witness :
    fetch_pokemon_data (fun _ => HttpOutcome.response 200 none) "pikachu" = none
    ∧ fetch_pokemon_data (fun _ => HttpOutcome.response 200 (some (Json.obj []))) "pikachu"
        = none :=
  ⟨(C10_missing_field_absent (fun _ => HttpOutcome.response 200 none) "pikachu").1 rfl,
   (C10_missing_field_absent (fun _ => HttpOutcome.response 200 (some (Json.obj [])))
      "pikachu").2 (Json.obj []) rfl (Or.inl rfl)⟩

/-! ## Workflow claims (C2, C7, C9) -/

/-- C2: evaluation of the code at the failing input. In a session holding
the record of an earlier successful run, an analyze run whose
identification produces a name but whose data fetch returns absent sets the
failure flag yet leaves the old record stored and displayed, and the
not-found message is suppressed — the failure branch (line 295) never
clears the stored record, defeating the not-found outcome its own comment
and the display logic of lines 312–314 intend. -/
theorem C2_stale_record_displayed :
    (analyze_action (some "missingno") (fun _ => none)
        { pokemon_data := some sampleRecord, captured_image := some [0],
          detection_failed := false }).1.detection_failed = true
    ∧ displayResult (analyze_action (some "missingno") (fun _ => none)
        { pokemon_data := some sampleRecord, captured_image := some [0],
          detection_failed := false }).1 = DisplayOutcome.record sampleRecord
    ∧ showsNotFound (analyze_action (some "missingno") (fun _ => none)
        { pokemon_data := some sampleRecord, captured_image := some [0],
          detection_failed := false }).1 = false :=
  ⟨rfl, rfl, rfl⟩

/-- General characterization of the failed-fetch path of the analyze block:
when identification produces a name but the data fetch returns absent, the
run sets the failure flag and stores no new record; the not-found message
is displayed exactly when no record from an earlier successful run is
stored — otherwise that earlier record remains stored and continues to be
displayed. -/
theorem C2_fetch_absent_outcome (s : SessionState) (name : String)
    (fetch : String → Option PokemonRecord) (hname : name ≠ "")
    (hfetch : fetch name = none) :
    (analyze_action (some name) fetch s).1 = { s with detection_failed := true }
    ∧ (analyze_action (some name) fetch s).1.pokemon_data = s.pokemon_data
    ∧ (s.pokemon_data = none →
        displayResult (analyze_action (some name) fetch s).1
          = DisplayOutcome.notFoundMessage)
    ∧ (∀ r, s.pokemon_data = some r →
        displayResult (analyze_action (some name) fetch s).1
          = DisplayOutcome.record r) := by
  have hstep : analyze_action (some name) fetch s
      = ({ s with detection_failed := true }, 1) := by
    simp [analyze_action, hname, hfetch]
  refine ⟨by rw [hstep], by rw [hstep], ?_, ?_⟩
  · intro h0
    rw [hstep]
    simp [displayResult, h0]
  · intro r hr
    rw [hstep]
    simp [displayResult, hr]

/-- Companion instance of the failed-fetch characterization: in a fresh
session the failed fetch does show the not-found message. -/
theorem C2_fetch_absent_outcome_witness :
    displayResult (analyze_action (some "missingno") (fun _ => none)
        { pokemon_data := none, captured_image := none, detection_failed := false }).1
      = DisplayOutcome.notFoundMessage :=
  (C2_fetch_absent_outcome
    { pokemon_data := none, captured_image := none, detection_failed := false }
    "missingno" (fun _ => none) (by decide) rfl).2.2.1 rfl

/-- C7 counterexample: in a session holding the record of an earlier
successful run, an analyze run with absent identification issues no fetch
call, yet the workflow does not reach the not-found outcome: the old record
remains displayed. -/
theorem C7_stale_record_not_notfound :
    (analyze_action none (fun _ => none)
        { pokemon_data := some sampleRecord, captured_image := some [0],
          detection_failed := false }).2 = 0
    ∧ displayResult (analyze_action none (fun _ => none)
        { pokemon_data := some sampleRecord, captured_image := some [0],
          detection_failed := false }).1 = DisplayOutcome.record sampleRecord
    ∧ showsNotFound (analyze_action none (fun _ => none)
        { pokemon_data := some sampleRecord, captured_image := some [0],
          detection_failed := false }).1 = false :=
  ⟨rfl, rfl, rfl⟩

/-- C7 (amended): when identification returns absent, no data-fetch call is
issued and the failure flag is set; the not-found message is displayed
exactly when no record from an earlier successful run is stored — otherwise
that earlier record remains displayed. -/
theorem C7_identify_absent_outcome (s : SessionState)
    (fetch : String → Option PokemonRecord) :
    (analyze_action none fetch s).2 = 0
    ∧ (analyze_action none fetch s).1 = { s with detection_failed := true }
    ∧ (s.pokemon_data = none →
        displayResult (analyze_action none fetch s).1 = DisplayOutcome.notFoundMessage)
    ∧ (∀ r, s.pokemon_data = some r →
        displayResult (analyze_action none fetch s).1 = DisplayOutcome.record r) := by
  refine ⟨rfl, rfl, ?_, ?_⟩
  · intro h0
    simp [analyze_action, displayResult, h0]
  · intro r hr
    simp [analyze_action, displayResult, hr]

/-- C7 witness: in a fresh session an absent identification shows the
not-found message with no fetch call. -/
theorem C7_identify_absent_outcome_witness :
    (analyze_action none (fun _ => none)
        { pokemon_data := none, captured_image := none, detection_failed := false }).2 = 0
    ∧ displayResult (analyze_action none (fun _ => none)
        { pokemon_data := none, captured_image := none, detection_failed := false }).1
      = DisplayOutcome.notFoundMessage :=
  ⟨(C7_identify_absent_outcome
      { pokemon_data := none, captured_image := none, detection_failed := false }
      (fun _ => none)).1,
   (C7_identify_absent_outcome
      { pokemon_data := none, captured_image := none, detection_failed := false }
      (fun _ => none)).2.2.1 rfl⟩

/-- C9: from a state whose results area shows a record (Found) or the
not-found message (NotFound), the reset trigger returns the workflow to the
idle view, clearing the stored record, the stored captured image and the
failure flag. -/
theorem C9_reset_clears (s : SessionState)
    (_h : showsRecord s = true ∨ showsNotFound s = true) :
    reset_action s
      = { pokemon_data := none, captured_image := none, detection_failed := false }
    ∧ (reset_action s).pokemon_data = none
    ∧ (reset_action s).captured_image = none
    ∧ (reset_action s).detection_failed = false
    ∧ displayResult (reset_action s) = DisplayOutcome.idle :=
  ⟨rfl, rfl, rfl, rfl, rfl⟩

/-- C9 witness: reset from a NotFound state. -/
theorem C9_reset_clears_witness :
    reset_action
        { pokemon_data := none, captured_image := some [0], detection_failed := true }
      = { pokemon_data := none, captured_image := none, detection_failed := false }
    ∧ displayResult (reset_action
        { pokemon_data := none, captured_image := some [0], detection_failed := true })
      = DisplayOutcome.idle :=
  ⟨(C9_reset_clears
      { pokemon_data := none, captured_image := some [0], detection_failed := true }
      (Or.inr rfl)).1,
   (C9_reset_clears
      { pokemon_data := none, captured_image := some [0], detection_failed := true }
      (Or.inr rfl)).2.2.2.2⟩

/-! ## Cache claims (C1) -/

/-- C1 counterexample: the cache is keyed by the raw argument, not by the
normalized slug. The raw names `"Pikachu"` and `"pikachu"` normalize to the
same slug, yet the second of two consecutive calls with them — within the
time-to-live window — still issues a network request instead of being
served from the cache. -/
theorem C1_cache_keyed_by_raw_name :
    clean_name "Pikachu" = clean_name "pikachu"
    ∧ (fetch_cached net404
        (fetch_cached net404 [] 0 "Pikachu").2.1 1 "pikachu").2.2 = 1 :=
  ⟨by decide, rfl⟩

/-- C1 (amended): the cache of `fetch_pokemon_data` is keyed by the raw
name argument (normalization happens inside the cached function), holding
at most one entry per raw name, last write wins. Two consecutive calls with
the same raw name within the one-hour time-to-live issue at most one
network request in total — the second call is a cache hit returning the
stored value with no request — and once the time-to-live has elapsed a
subsequent call with a non-empty name issues a new network request. -/
theorem C1_cache_ttl_behavior (net : String → HttpOutcome) (name : String)
    (t1 t2 t3 : Nat) (h12 : t2 < t1 + TTL) (h3 : t1 + TTL ≤ t3) (hname : name ≠ "") :
    (fetch_cached net [] t1 name).2.2 ≤ 1
    ∧ (fetch_cached net (fetch_cached net [] t1 name).2.1 t2 name).2.2 = 0
    ∧ (fetch_cached net (fetch_cached net [] t1 name).2.1 t2 name).1
        = (fetch_cached net [] t1 name).1
    ∧ (fetch_cached net
        (fetch_cached net (fetch_cached net [] t1 name).2.1 t2 name).2.1 t3 name).2.2
        = 1 := by
  have hstep1 : fetch_cached net [] t1 name
      = ((fetch_body net name).1, [(name, (fetch_body net name).1, t1)],
         (fetch_body net name).2) := rfl
  have hlook2 : ∀ v : Option PokemonRecord,
      cacheLookup [(name, v, t1)] name t2 = some v := by
    intro v
    unfold cacheLookup
    rw [List.find?_cons]
    simp only [beq_self_eq_true]
    rw [if_pos h12]
  have hstep2 : ∀ v : Option PokemonRecord,
      fetch_cached net [(name, v, t1)] t2 name = (v, [(name, v, t1)], 0) := by
    intro v
    unfold fetch_cached
    rw [hlook2 v]
  have hlook3 : ∀ v : Option PokemonRecord,
      cacheLookup [(name, v, t1)] name t3 = none := by
    intro v
    unfold cacheLookup
    rw [List.find?_cons]
    simp only [beq_self_eq_true]
    rw [if_neg (by omega)]
  have hstep3 : ∀ v : Option PokemonRecord,
      (fetch_cached net [(name, v, t1)] t3 name).2.2 = (fetch_body net name).2 := by
    intro v
    unfold fetch_cached
    rw [hlook3 v]
  refine ⟨?_, ?_, ?_, ?_⟩
  · rw [hstep1]
    exact fetch_body_count_le net name
  · rw [hstep1, hstep2]
  · rw [hstep1, hstep2]
  · rw [hstep1, hstep2, hstep3]
    exact fetch_body_count_one net name hname

/-- C1 witness: two calls with the raw name `"pikachu"` at times 0 and 10,
then a third at time 3600. -/
theorem C1_cache_ttl_behavior_witness :
    (fetch_cached net404 [] 0 "pikachu").2.2 ≤ 1
    ∧ (fetch_cached net404 (fetch_cached net404 [] 0 "pikachu").2.1 10 "pikachu").2.2 = 0
    ∧ (fetch_cached net404 (fetch_cached net404 [] 0 "pikachu").2.1 10 "pikachu").1
        = (fetch_cached net404 [] 0 "pikachu").1
    ∧ (fetch_cached net404
        (fetch_cached net404 (fetch_cached net404 [] 0 "pikachu").2.1 10 "pikachu").2.1
        3600 "pikachu").2.2 = 1 :=
  C1_cache_ttl_behavior net404 "pikachu" 0 10 3600 (by decide) (by decide) (by decide)
